import Mathlib

/-!
Verification of the conversation turn controller in
src/app/components/InterviewSession.tsx (the InterviewSession React
component). The component state (the useState variables) is embedded as a
record of booleans, strings and the message list; each event handler of the
source is embedded as a pure function on that record, with its observable
effects (network save attempts, the reply request, onEnd invocations)
returned explicitly. Strings are modelled as Lean strings; the JavaScript
truthiness test on a string is emptiness, and String.prototype.trim is
embedded as jsTrim below.
-/

/-- An apostrophe, written via its code point so it can be spliced into the
string literals copied from the source. -/
def apos : String := (Char.ofNat 39).toString

/-- Embedding of JavaScript String.prototype.trim: remove whitespace from
both ends of the character list. -/
def jsTrim (s : String) : String :=
  ⟨((s.data.reverse.dropWhile Char.isWhitespace).reverse).dropWhile Char.isWhitespace⟩

/-- Embedding of the JavaScript `x || y` idiom on strings: the left operand
unless it is falsy (empty). -/
def jsOr (x y : String) : String := if x = "" then y else x

/-- Message role, src lines 14 and 20. -/
inductive Role where
  | user
  | assistant
deriving DecidableEq

/-- The Message record of src lines 11-16 (timestamps as naturals). -/
structure Message where
  id : String
  content : String
  role : Role
  timestamp : Nat
deriving DecidableEq

/-- The role/content pair sent to the AI backend (src lines 546-549). -/
structure AIMsg where
  role : Role
  content : String
deriving DecidableEq

/-- src lines 546-549: a Message stripped to role and content. -/
def toAIMsg (m : Message) : AIMsg := ⟨m.role, m.content⟩

/-- The details prop of a mock interview (src lines 220-223); an absent
field is the empty string, matching the `details.x || fallback` reads. -/
structure Details where
  role : String
  company : String
  experience : String
  specificSkills : String
deriving DecidableEq

/-- The component props (src lines 18-25). -/
structure Props where
  topic : String
  sessionType : String
  details : Details
  notes : String
deriving DecidableEq

/-- The useState variables of the component that the handlers touch
(src lines 28-42). audioRecorder is kept as presence (hasRecorder) plus its
recording status. -/
structure SessionState where
  messages : List Message
  isListening : Bool
  userInput : String
  isLoading : Bool
  isThinking : Bool
  isSpeaking : Bool
  isConnected : Bool
  transcript : String
  hasRecorder : Bool
  recording : Bool
  isEndingInterview : Bool
  liveTranscript : String
deriving DecidableEq

/-- The feedback object delivered to onEnd (src line 21). -/
structure Feedback where
  summary : String
  strengths : List String
  improvements : List String
deriving DecidableEq

/-- The session data written to sessionStorage (src lines 236-241). -/
structure StoredSession where
  id : String
  topic : String
  type : String
deriving DecidableEq

/-- src lines 236-277: startInterview stores a locally generated id
(Date.now().toString()); when the create-session response carries a truthy
id, that id replaces the local one. `serverId = none` covers a failed or
id-less create-session response. -/
def startInterviewStore (topic sessionType : String) (now : Nat) (serverId : Option String) : StoredSession :=
  let sd : StoredSession := ⟨Nat.repr now, topic, sessionType⟩
  match serverId with
  | some sid => if sid ≠ "" then { sd with id := sid } else sd
  | none => sd

/-- src lines 517-518: the save-message call is attempted iff the stored
session data has a truthy id. -/
def saveMessageAttempted (stored : Option StoredSession) : Bool :=
  match stored with
  | some sd => sd.id != ""
  | none => false

/-- src lines 695-696 and 733-734: the save-feedback call is guarded by the
same truthy-id test on the stored session data. -/
def saveFeedbackAttempted (stored : Option StoredSession) : Bool :=
  match stored with
  | some sd => sd.id != ""
  | none => false

/-- src lines 209-233: the introduction message chosen by session type. -/
def introMessage (p : Props) : String :=
  if p.sessionType = "topic" then
    "Welcome to your lecture on " ++ p.topic ++ ". I" ++ apos ++
      "ll start with an overview and then we" ++ apos ++
      "ll dive into the details. Feel free to ask questions at any point."
  else if p.sessionType = "qa" then
    "Welcome to your Q&A session on " ++ p.topic ++ ". I" ++ apos ++
      "ll be testing your knowledge with a series of questions. Let" ++ apos ++
      "s see how much you know about " ++ p.topic ++ "!"
  else if p.sessionType = "language" then
    "Bonjour! Welcome to your language practice session. Today we" ++ apos ++
      "ll be practicing " ++ p.topic ++ ". I" ++ apos ++
      "ll speak in the language we" ++ apos ++
      "re practicing, and you can respond to improve your skills."
  else if p.sessionType = "mock" then
    let role := jsOr p.details.role p.topic
    let company := jsOr p.details.company "a company"
    let experience := jsOr p.details.experience "this role"
    let base := "Welcome to your mock interview for the " ++ role ++
      " position at " ++ company ++ ". I" ++ apos ++
      "ll be your interviewer today. I" ++ apos ++
      "ll ask you questions related to " ++ p.topic ++
      " and your experience with " ++ experience ++ "."
    let base := if p.details.specificSkills ≠ "" then
        base ++ " I" ++ apos ++ "ll focus particularly on your skills with " ++
          p.details.specificSkills ++ "."
      else base
    base ++ " Let" ++ apos ++ "s begin!"
  else
    "Great! Let" ++ apos ++ "s start our interview about " ++ p.topic ++
      ". I" ++ apos ++ "ll ask you some questions about " ++ p.topic ++
      " and you can respond either by speaking or typing your answers."

/-- src lines 246-253: startInterview appends the introduction as an
assistant Message. -/
def startInterviewAppend (p : Props) (s : SessionState) (now : Nat) : SessionState :=
  { s with messages := s.messages ++ [⟨Nat.repr now, introMessage p, Role.assistant, now⟩] }

/-- The observable outcome of setupAudioRecording (src lines 177-202):
whether a recorder was installed, the connected flag, and whether
startInterview was scheduled. -/
structure ConnectOutcome where
  hasRecorder : Bool
  isConnected : Bool
  startScheduled : Bool
deriving DecidableEq

/-- src lines 177-202: on microphone success the recorder is installed and
the session connects; on failure (catch) the session still connects and the
interview introduction is still scheduled, only without a recorder. -/
def setupAudioRecording (micAvailable : Bool) : ConnectOutcome :=
  if micAvailable then ⟨true, true, true⟩ else ⟨false, true, true⟩

/-- src lines 490-498: the text submitted by handleSendMessage. The live
transcript wins when truthy; otherwise the transcribedText argument when
present and truthy; otherwise the typed text box content. -/
def selectTextToSend (s : SessionState) (transcribedText : Option String) : String :=
  if s.liveTranscript ≠ "" then s.liveTranscript
  else
    match transcribedText with
    | some t => if t ≠ "" then t else s.userInput
    | none => s.userInput

/-- The outcome of the synchronous prefix of handleSendMessage: the updated
state, the Messages it appended, whether a save-message call was attempted,
and whether a reply was requested from the AI backend. -/
structure SendOutcome where
  state : SessionState
  appended : List Message
  saveAttempted : Bool
  replyRequested : Bool
deriving DecidableEq

/-- src lines 517-518: truthiness of the stored session id read back in
handleSendMessage. -/
def idTruthy : Option String → Bool
  | some i => i != ""
  | none => false

/-- src lines 488-542: handleSendMessage up to the awaited reply fetch.
Whitespace-only text returns without any update (line 500); otherwise the
trimmed text is appended as a user Message, the three text buffers are
cleared, loading and thinking are set, save-message is attempted when a
stored id exists, and the reply request is issued. -/
def handleSendMessagePre (s : SessionState) (storedId : Option String)
    (transcribedText : Option String) (now : Nat) : SendOutcome :=
  let textToSend := selectTextToSend s transcribedText
  if jsTrim textToSend = "" then ⟨s, [], false, false⟩
  else
    let newUserMessage : Message := ⟨Nat.repr now, jsTrim textToSend, Role.user, now⟩
    ⟨{ s with
        messages := s.messages ++ [newUserMessage],
        userInput := "",
        transcript := "",
        liveTranscript := "",
        isLoading := true,
        isThinking := true },
      [newUserMessage], idTruthy storedId, true⟩

/-- src lines 546-555: the history handed to generateInterviewResponse is
the full closure message list plus the new user message, unsliced. -/
def handleSendMessageAiPayload (messages : List Message) (newUserMessage : Message) : List AIMsg :=
  messages.map toAIMsg ++ [toAIMsg newUserMessage]

/-- src line 641: the fixed apology content of the reply-failure fallback. -/
def apologyText : String :=
  "I" ++ apos ++ "m sorry, I" ++ apos ++
    "m having trouble responding right now. Let" ++ apos ++
    "s continue our conversation."

/-- src lines 635-649: the catch branch of handleSendMessage, as the list of
successive states it passes through: append the apology assistant Message,
clear isThinking, clear isLoading. No other flag is touched, and in
particular isSpeaking is never set on this path. -/
def handleSendMessageOnError (s : SessionState) (now : Nat) : List SessionState :=
  let s1 := { s with messages := s.messages ++ [⟨Nat.repr now, apologyText, Role.assistant, now⟩] }
  let s2 := { s1 with isThinking := false }
  let s3 := { s2 with isLoading := false }
  [s1, s2, s3]

/-- src lines 396-414: stopListening stops recognition and the recorder and
clears the listening flag. -/
def stopListening (s : SessionState) : SessionState :=
  { s with isListening := false, recording := false }

/-- src lines 369-394: startListening. Without a recorder it only alerts;
while the assistant is speaking it returns immediately; otherwise it sets
the listening flag, clears both transcripts and starts the recorder. -/
def startListening (s : SessionState) : SessionState :=
  if !s.hasRecorder then s
  else if s.isSpeaking then s
  else { s with isListening := true, transcript := "", liveTranscript := "", recording := true }

/-- src line 1028: the disabled condition of the microphone button. -/
def micButtonDisabled (s : SessionState) : Bool :=
  s.isLoading || !s.hasRecorder || s.isSpeaking

/-- src line 1020: the disabled condition of the message textarea. -/
def textareaDisabled (s : SessionState) : Bool :=
  s.isLoading || s.isListening || s.isSpeaking

/-- src line 1027: a click on the capture button, a no-op when the button is
disabled, otherwise stopListening or startListening by the listening flag. -/
def captureClick (s : SessionState) : SessionState :=
  if micButtonDisabled s then s
  else if s.isListening then stopListening s else startListening s

/-- src lines 652-657 with line 1016-1020: the Enter-key submit action; a
disabled textarea receives no key events, otherwise handleSendMessage runs
with no transcription argument. -/
def submitKeyPress (s : SessionState) (storedId : Option String) (now : Nat) : SendOutcome :=
  if textareaDisabled s then ⟨s, [], false, false⟩
  else handleSendMessagePre s storedId none now

/-- src lines 718-730: the canned feedback substituted when the feedback
fetch fails. -/
def fallbackFeedback (sessionType topic : String) : Feedback :=
  { summary := "You participated in this " ++ sessionType ++ " about " ++ topic ++ "."
    strengths := [
      "Engaged in the " ++ sessionType,
      "Provided responses to questions",
      "Completed the session"]
    improvements := [
      "Technical issues prevented detailed feedback",
      "Try another session with a different connection",
      "Consider trying a different topic"] }

/-- The state of the end-of-interview flow (src lines 659-756): the ending
flag, whether a feedback fetch is in flight, the thinking flag, and the
feedback values delivered to onEnd so far. -/
structure EndState where
  isEndingInterview : Bool
  pendingFeedback : Bool
  isThinking : Bool
  onEndCalls : List Feedback
deriving DecidableEq

/-- The events of the end flow: an end click, and the resolution of the
in-flight feedback fetch (successful with a feedback value, or failed). -/
inductive EndEv where
  | click
  | resolved (fb : Feedback)
  | failed
deriving DecidableEq

/-- src lines 659-756 as an event step function. A click returns at once
when the ending flag is set (line 661); otherwise it sets the flag, cancels
speech, recording and the timer, sets thinking and awaits the feedback
fetch. A resolution fires only while a fetch is pending: the success branch
delivers the fetched feedback to onEnd (line 713), the catch branch
delivers the canned fallback (line 751); the finally block clears thinking
and the ending flag either way (lines 752-755). -/
def endStep (p : Props) (st : EndState) (ev : EndEv) : EndState :=
  match ev with
  | .click =>
      if st.isEndingInterview then st
      else { st with isEndingInterview := true, isThinking := true, pendingFeedback := true }
  | .resolved fb =>
      if st.pendingFeedback then
        { isEndingInterview := false, pendingFeedback := false, isThinking := false,
          onEndCalls := st.onEndCalls ++ [fb] }
      else st
  | .failed =>
      if st.pendingFeedback then
        { isEndingInterview := false, pendingFeedback := false, isThinking := false,
          onEndCalls := st.onEndCalls ++ [fallbackFeedback p.sessionType p.topic] }
      else st

/-- The end-flow state at component mount: no ending in progress, no fetch
in flight, no onEnd delivered. -/
def initialEndState : EndState := ⟨false, false, false, []⟩

/-- Run the end flow from mount over a list of events. -/
def runEnd (p : Props) (evs : List EndEv) : EndState :=
  evs.foldl (endStep p) initialEndState

/-- src lines 864-867: sendToAI keeps only the most recent 15 messages
(slice(-15)). -/
def sendToAIRecent (userMessages : List Message) : List Message :=
  userMessages.drop (userMessages.length - 15)

/-- Modelled from the spec: generateInterviewResponse (imported from
src/app/lib/client-ai, a repository file not among the staged sources)
implements the Gateway getReply operation of spec section 4.4, which sends
the most recent bounded window of history, capped at the last 15 messages. -/
def specGetReplyWindow (history : List AIMsg) : List AIMsg :=
  history.drop (history.length - 15)

/-- Helper: the head of dropWhile never satisfies the dropped predicate. -/
theorem dropWhile_head_not {α : Type} (p : α → Bool) (l : List α) (c : α)
    (h : (l.dropWhile p).head? = some c) : p c = false := by
  induction l with
  | nil => simp [List.dropWhile] at h
  | cons a t ih =>
    rw [List.dropWhile_cons] at h
    by_cases hp : p a = true
    · rw [if_pos hp] at h
      exact ih h
    · rw [if_neg hp] at h
      simp at h
      rw [← h]
      simpa using hp

/-- Helper: when dropWhile leaves something, the last element survives. -/
theorem dropWhile_getLast_eq {α : Type} (p : α → Bool) (l : List α)
    (h : l.dropWhile p ≠ []) : (l.dropWhile p).getLast? = l.getLast? := by
  induction l with
  | nil => simp [List.dropWhile] at h
  | cons a t ih =>
    rw [List.dropWhile_cons]
    rw [List.dropWhile_cons] at h
    by_cases hp : p a = true
    · rw [if_pos hp] at h ⊢
      have ht : t ≠ [] := by
        intro he
        rw [he] at h
        simp [List.dropWhile] at h
      rw [ih h]
      cases t with
      | nil => exact absurd rfl ht
      | cons b u => rw [List.getLast?_cons_cons]
    · rw [if_neg hp]

/-- Helper: the trimmed string never starts with whitespace. -/
theorem jsTrim_head_not_ws (s : String) (c : Char)
    (h : (jsTrim s).data.head? = some c) : c.isWhitespace = false := by
  exact dropWhile_head_not Char.isWhitespace _ c h

/-- Helper: the trimmed string never ends with whitespace. -/
theorem jsTrim_getLast_not_ws (s : String) (c : Char)
    (h : (jsTrim s).data.getLast? = some c) : c.isWhitespace = false := by
  have hne : (jsTrim s).data ≠ [] := by
    intro he
    rw [he] at h
    simp at h
  have h2 := dropWhile_getLast_eq Char.isWhitespace
    ((s.data.reverse.dropWhile Char.isWhitespace).reverse) hne
  rw [show (jsTrim s).data =
      ((s.data.reverse.dropWhile Char.isWhitespace).reverse).dropWhile Char.isWhitespace
    from rfl] at h
  rw [h2, List.getLast?_reverse] at h
  exact dropWhile_head_not Char.isWhitespace _ c h

/-- Helper: toDigitsCore never shrinks its accumulator. -/
theorem toDigitsCore_len (b : Nat) (fuel : Nat) : ∀ (n : Nat) (ds : List Char),
    ds.length ≤ (Nat.toDigitsCore b fuel n ds).length := by
  induction fuel with
  | zero => intro n ds; simp [Nat.toDigitsCore]
  | succ f ih =>
    intro n ds
    rw [Nat.toDigitsCore]
    by_cases h : n / b = 0
    · simp [h]
    · rw [if_neg h]
      calc ds.length ≤ (Nat.digitChar (n % b) :: ds).length := by simp
        _ ≤ _ := ih (n / b) (Nat.digitChar (n % b) :: ds)

/-- Helper: the decimal representation of a natural is never empty. -/
theorem natRepr_ne_empty (n : Nat) : Nat.repr n ≠ "" := by
  intro h
  have hlen := congrArg String.length h
  have hd : (Nat.toDigits 10 n).length = 0 := by
    simpa [Nat.repr, List.asString, String.length] using hlen
  have hpos : 1 ≤ (Nat.toDigits 10 n).length := by
    rw [Nat.toDigits, Nat.toDigitsCore]
    by_cases hb : n / 10 = 0
    · simp [hb]
    · rw [if_neg hb]
      have := toDigitsCore_len 10 n (n / 10) [Nat.digitChar (n % 10)]
      simpa using this
  omega

/-- Helper: string append with a nonempty left part is nonempty. -/
theorem string_data_append (a b : String) : (a ++ b).data = a.data ++ b.data := by
  cases a; cases b; rfl

/-- Helper: a string append whose left operand is nonempty is nonempty. -/
theorem string_append_ne_empty (a b : String) (ha : a ≠ "") : a ++ b ≠ "" := by
  intro h
  apply ha
  have h2 : a.data ++ b.data = [] := by
    have h3 := congrArg String.data h
    rwa [string_data_append] at h3
  have h3 : a.data = [] := (List.append_eq_nil.mp h2).1
  cases a
  cases h3
  rfl

/-- Helper: while the ending flag is set, further end clicks leave the end
flow state unchanged. -/
theorem replicate_clicks_noop (p : Props) (n : Nat) (st : EndState)
    (h : st.isEndingInterview = true) :
    (List.replicate n EndEv.click).foldl (endStep p) st = st := by
  induction n with
  | zero => rfl
  | succ m ih =>
    rw [List.replicate_succ, List.foldl_cons]
    have hstep : endStep p st .click = st := by simp [endStep, h]
    rw [hstep, ih]

/-- C1: from a fresh session, one end click followed by any number of
further rapid end clicks while the feedback fetch is in flight delivers
exactly one onEnd call once the fetch resolves, whether it succeeds or
fails: the ending flag set by the first click suppresses re-entry. -/
theorem c1_onEnd_exactly_once (p : Props) (n : Nat) (fb : Feedback) :
    (runEnd p (EndEv.click :: (List.replicate n EndEv.click ++ [EndEv.resolved fb]))).onEndCalls.length = 1
    ∧ (runEnd p (EndEv.click :: (List.replicate n EndEv.click ++ [EndEv.failed]))).onEndCalls.length = 1 := by
  have hst1 : endStep p initialEndState EndEv.click = ⟨true, true, true, []⟩ := by
    simp [endStep, initialEndState]
  constructor <;>
  · rw [runEnd, List.foldl_cons, hst1, List.foldl_append,
      replicate_clicks_noop p n ⟨true, true, true, []⟩ rfl]
    simp [endStep]

/-- C5: when the feedback fetch fails while in flight, the end flow still
delivers exactly the canned fallback feedback to onEnd, and that fallback
has a non-empty summary and at least one strength and one improvement. -/
theorem c5_fallback_feedback_delivered (p : Props) (st : EndState) :
    (endStep p { st with pendingFeedback := true } EndEv.failed).onEndCalls
        = st.onEndCalls ++ [fallbackFeedback p.sessionType p.topic]
    ∧ (fallbackFeedback p.sessionType p.topic).summary ≠ ""
    ∧ 1 ≤ (fallbackFeedback p.sessionType p.topic).strengths.length
    ∧ 1 ≤ (fallbackFeedback p.sessionType p.topic).improvements.length := by
  refine ⟨by simp [endStep], ?_, by simp [fallbackFeedback], by simp [fallbackFeedback]⟩
  show "You participated in this " ++ p.sessionType ++ " about " ++ p.topic ++ "." ≠ ""
  apply string_append_ne_empty
  apply string_append_ne_empty
  apply string_append_ne_empty
  apply string_append_ne_empty
  decide

/-- C2: in any state in which the assistant is speaking, the start-capture
handler, the capture-button click and the Enter-key submit action all leave
the state unchanged and append no Message, attempt no save and request no
reply. -/
theorem c2_noop_while_assistant_speaking (s : SessionState) (storedId : Option String) (now : Nat) :
    startListening { s with isSpeaking := true } = { s with isSpeaking := true }
    ∧ captureClick { s with isSpeaking := true } = { s with isSpeaking := true }
    ∧ submitKeyPress { s with isSpeaking := true } storedId now =
        ⟨{ s with isSpeaking := true }, [], false, false⟩ := by
  refine ⟨?_, ?_, ?_⟩
  · simp [startListening]
  · simp [captureClick, micButtonDisabled]
  · simp [submitKeyPress, textareaDisabled]

/-- C3: at submit time the non-empty live transcript wins over a non-empty
recorded transcription, and with no live transcript and no transcription
the typed text box content is submitted. -/
theorem c3_live_transcript_precedence (s : SessionState) (t : String) :
    (s.liveTranscript ≠ "" → t ≠ "" → selectTextToSend s (some t) = s.liveTranscript)
    ∧ (s.liveTranscript = "" → selectTextToSend s none = s.userInput) := by
  constructor
  · intro h1 _
    simp [selectTextToSend, h1]
  · intro h1
    simp [selectTextToSend, h1]

/-- A concrete AwaitingReply state (thinking, not speaking) used to exhibit
the reply-failure path. -/
def c4state : SessionState :=
  { messages := [], isListening := false, userInput := "", isLoading := true,
    isThinking := true, isSpeaking := false, isConnected := true, transcript := "",
    hasRecorder := true, recording := false, isEndingInterview := false,
    liveTranscript := "" }

/-- C4 counterexample: from a concrete AwaitingReply state, the reply-failure
path of handleSendMessage never sets isSpeaking: no state it passes through
is AssistantSpeaking, so the claimed transition AwaitingReply to
AssistantSpeaking to Idle does not happen on this path. -/
theorem c4_counterexample :
    c4state.isThinking = true
    ∧ (handleSendMessageOnError c4state 7).all (fun st => !st.isSpeaking) = true := by
  decide

/-- C4 amended: on a reply-fetch failure in an AwaitingReply state that is
not speaking, the catch branch appends the fixed apology assistant Message,
then clears isThinking, then clears isLoading, ending not stuck in
AwaitingReply; isSpeaking stays false throughout, so the machine returns to
Idle directly without an AssistantSpeaking stage. -/
theorem c4_apology_and_recovery (s : SessionState) (now : Nat) :
    handleSendMessageOnError { s with isThinking := true, isSpeaking := false } now =
      [ { s with
          isThinking := true, isSpeaking := false,
          messages := s.messages ++ [⟨Nat.repr now, apologyText, Role.assistant, now⟩] },
        { s with
          isThinking := false, isSpeaking := false,
          messages := s.messages ++ [⟨Nat.repr now, apologyText, Role.assistant, now⟩] },
        { s with
          isThinking := false, isSpeaking := false, isLoading := false,
          messages := s.messages ++ [⟨Nat.repr now, apologyText, Role.assistant, now⟩] } ]
    ∧ (handleSendMessageOnError { s with isThinking := true, isSpeaking := false } now).all
        (fun st => !st.isSpeaking) = true := by
  exact ⟨rfl, rfl⟩

/-- C6: when the selected text trims to empty, handleSendMessage returns at
once: the state is unchanged, no Message is appended, no save call is
attempted and no reply is requested. -/
theorem c6_whitespace_submit_noop (s : SessionState) (storedId : Option String)
    (t : Option String) (now : Nat) (h : jsTrim (selectTextToSend s t) = "") :
    handleSendMessagePre s storedId t now = ⟨s, [], false, false⟩ := by
  simp [handleSendMessagePre, h]

/-- A concrete state whose text box holds only whitespace. -/
def c6state : SessionState :=
  { messages := [], isListening := false, userInput := "   ", isLoading := false,
    isThinking := false, isSpeaking := false, isConnected := true, transcript := "",
    hasRecorder := true, recording := false, isEndingInterview := false,
    liveTranscript := "" }

/-- C6 witness: submitting a concrete whitespace-only text box is a no-op. -/
theorem c6_whitespace_submit_noop_witness :
    handleSendMessagePre c6state none none 1 = ⟨c6state, [], false, false⟩ :=
  c6_whitespace_submit_noop c6state none none 1 (by decide)

/-- C7: the reply request history is bounded by 15 messages, both in the
sendToAI helper of the source (slice of the last 15) and in the Gateway
getReply operation as the spec describes it. -/
theorem c7_reply_window_bounded (history : List Message) (aiHistory : List AIMsg) :
    (sendToAIRecent history).length ≤ 15 ∧ (specGetReplyWindow aiHistory).length ≤ 15 := by
  constructor <;>
  · simp [sendToAIRecent, specGetReplyWindow]
    omega

/-- C8 counterexample: a concrete startInterview run whose create-session
response supplies no id still stores the locally generated id, and both
save-message and save-feedback are then attempted, not skipped. -/
theorem c8_counterexample_local_id :
    saveMessageAttempted (some (startInterviewStore "Graphs" "qa" 1234 none)) = true
    ∧ saveFeedbackAttempted (some (startInterviewStore "Graphs" "qa" 1234 none)) = true
    ∧ (startInterviewStore "Graphs" "qa" 1234 none).id = "1234" := by
  decide

/-- C8 amended: the save calls are guarded only by the presence of a truthy
id in the stored session data; startInterview always stores the nonempty
locally generated id, so with no server-issued id the saves are still
attempted with the local id, and they are skipped only when no session data
was stored at all. -/
theorem c8_local_id_persistence (t ty : String) (now : Nat) :
    (startInterviewStore t ty now none).id = Nat.repr now
    ∧ saveMessageAttempted (some (startInterviewStore t ty now none)) = true
    ∧ saveFeedbackAttempted (some (startInterviewStore t ty now none)) = true
    ∧ saveMessageAttempted none = false
    ∧ saveFeedbackAttempted none = false := by
  refine ⟨rfl, ?_, ?_, rfl, rfl⟩ <;>
  · simp [saveMessageAttempted, saveFeedbackAttempted, startInterviewStore, bne_iff_ne]
    exact natRepr_ne_empty now

/-- C9: a failed microphone acquisition still connects the session and still
schedules the interview introduction, only in text-only mode (no recorder);
startInterview then appends the introduction as an assistant Message. -/
theorem c9_mic_failure_nonfatal (p : Props) (s : SessionState) (now : Nat) :
    (setupAudioRecording false).isConnected = true
    ∧ (setupAudioRecording false).startScheduled = true
    ∧ (setupAudioRecording false).hasRecorder = false
    ∧ (setupAudioRecording true).isConnected = true
    ∧ (startInterviewAppend p s now).messages
        = s.messages ++ [⟨Nat.repr now, introMessage p, Role.assistant, now⟩] := by
  exact ⟨rfl, rfl, rfl, rfl, rfl⟩

/-- C10: a successful user submission appends exactly one Message with role
user whose content is the trimmed selected text, hence non-empty and free of
leading and trailing whitespace, and the typed-input, transcript and
live-transcript buffers all end empty. -/
theorem c10_user_message_wellformed (s : SessionState) (storedId : Option String)
    (t : Option String) (now : Nat) (h : jsTrim (selectTextToSend s t) ≠ "") :
    (handleSendMessagePre s storedId t now).state.messages
        = s.messages ++ [⟨Nat.repr now, jsTrim (selectTextToSend s t), Role.user, now⟩]
    ∧ (handleSendMessagePre s storedId t now).appended
        = [⟨Nat.repr now, jsTrim (selectTextToSend s t), Role.user, now⟩]
    ∧ (handleSendMessagePre s storedId t now).state.userInput = ""
    ∧ (handleSendMessagePre s storedId t now).state.transcript = ""
    ∧ (handleSendMessagePre s storedId t now).state.liveTranscript = ""
    ∧ jsTrim (selectTextToSend s t) ≠ ""
    ∧ (∀ c, (jsTrim (selectTextToSend s t)).data.head? = some c → c.isWhitespace = false)
    ∧ (∀ c, (jsTrim (selectTextToSend s t)).data.getLast? = some c → c.isWhitespace = false) := by
  refine ⟨?_, ?_, ?_, ?_, ?_, h, ?_, ?_⟩
  · simp [handleSendMessagePre, h]
  · simp [handleSendMessagePre, h]
  · simp [handleSendMessagePre, h]
  · simp [handleSendMessagePre, h]
  · simp [handleSendMessagePre, h]
  · intro c hc
    exact jsTrim_head_not_ws _ c hc
  · intro c hc
    exact jsTrim_getLast_not_ws _ c hc

/-- A concrete state whose text box holds a padded word. -/
def c10state : SessionState :=
  { messages := [], isListening := false, userInput := " hi ", isLoading := false,
    isThinking := false, isSpeaking := false, isConnected := true, transcript := "",
    hasRecorder := true, recording := false, isEndingInterview := false,
    liveTranscript := "" }

/-- C10 witness: the concrete submission of a padded word appends the
trimmed user Message and clears the buffers. -/
theorem c10_user_message_wellformed_witness :
    (handleSendMessagePre c10state none none 2).state.messages
        = c10state.messages ++ [⟨Nat.repr 2, jsTrim (selectTextToSend c10state none), Role.user, 2⟩]
    ∧ (handleSendMessagePre c10state none none 2).appended
        = [⟨Nat.repr 2, jsTrim (selectTextToSend c10state none), Role.user, 2⟩]
    ∧ (handleSendMessagePre c10state none none 2).state.userInput = ""
    ∧ (handleSendMessagePre c10state none none 2).state.transcript = ""
    ∧ (handleSendMessagePre c10state none none 2).state.liveTranscript = ""
    ∧ jsTrim (selectTextToSend c10state none) ≠ ""
    ∧ (∀ c, (jsTrim (selectTextToSend c10state none)).data.head? = some c → c.isWhitespace = false)
    ∧ (∀ c, (jsTrim (selectTextToSend c10state none)).data.getLast? = some c → c.isWhitespace = false) :=
  c10_user_message_wellformed c10state none none 2 (by decide)

/-- A concrete capture-stop state with a non-empty live transcript. -/
def c3liveState : SessionState :=
  { messages := [], isListening := false, userInput := "typed words", isLoading := false,
    isThinking := false, isSpeaking := false, isConnected := true, transcript := "",
    hasRecorder := true, recording := false, isEndingInterview := false,
    liveTranscript := "live words" }

/-- A concrete state with no live transcript and no transcription. -/
def c3typedState : SessionState :=
  { messages := [], isListening := false, userInput := "typed words", isLoading := false,
    isThinking := false, isSpeaking := false, isConnected := true, transcript := "",
    hasRecorder := true, recording := false, isEndingInterview := false,
    liveTranscript := "" }

/-- C3 witness: with both texts non-empty the concrete live transcript is
selected, and with neither available the typed text box content is. -/
theorem c3_live_transcript_precedence_witness :
    selectTextToSend c3liveState (some "recorded words") = c3liveState.liveTranscript
    ∧ selectTextToSend c3typedState none = c3typedState.userInput :=
  ⟨(c3_live_transcript_precedence c3liveState "recorded words").1 (by decide) (by decide),
    (c3_live_transcript_precedence c3typedState "recorded words").2 rfl⟩
